import Mathlib

/-!
Shallow embedding of `src/workflow.py` of the voice-email-agent repository:
the LangGraph state machine that classifies a user instruction, routes it to
one of five branch handlers, and returns a final response string.

External collaborators (the OpenAI chat model reached through `llm.invoke`,
and the `rag_cli.py` / `email_cli.py` subprocesses) are modelled as oracles
in an `Env` record: each subprocess call site is one field holding the
captured exit code together with the outcome of `json.loads` on its stdout,
and the chat model is a function from the message list to either a
completion or a raised exception.  Python exceptions are modelled with
`Except String`; a `try/except` block is a `match` on the body's result.
-/

/-- The Python `AgentState` TypedDict (workflow.py lines 16-23).  `intent` is
a `String` because Python's `Literal` annotation is not enforced at runtime;
`context` is the open key-value bag no handler reads. -/
structure AgentState where
  user_input : String
  intent : String
  context : List (String × String)
  draft : String
  final_response : String
  error : String
deriving DecidableEq, Repr

/-- A chat message as built by the workflow: `SystemMessage` or
`HumanMessage` with its content string. -/
inductive Message where
  | system (content : String)
  | human (content : String)
deriving DecidableEq, Repr

/-- Python `json.JSONDecodeError`: message plus position.  Its `str()` form
(what `str(e)` stores into `state["error"]`) is `JsonError.str`. -/
structure JsonError where
  msg : String
  line : Nat
  col : Nat
  pos : Nat
deriving DecidableEq, Repr

/-- The string form of a `json.JSONDecodeError`, as CPython renders it:
`"{msg}: line {line} column {col} (char {pos})"`. -/
def JsonError.str (e : JsonError) : String :=
  e.msg ++ (": line " ++ toString e.line ++ " column " ++ toString e.col
    ++ " (char " ++ toString e.pos ++ ")")

/-- One retrieved passage of the rag_cli `search` result: the workflow only
reads the `"content"` key of each result object. -/
structure Passage where
  content : String
deriving DecidableEq, Repr

/-- The JSON object printed by `rag_cli.py search`: the workflow reads only
its `"results"` list (`rag_data.get("results", [])`, absent key ≡ `[]`). -/
structure RagData where
  results : List Passage
deriving DecidableEq, Repr

/-- One email summary of the email_cli `list` result: the workflow reads the
`"id"`, `"from"` and `"subject"` keys.  The `"from"` key is named `sender`
here because `from` is a Lean keyword. -/
structure EmailSummary where
  id : String
  sender : String
  subject : String
deriving DecidableEq, Repr

/-- The JSON object printed by `email_cli.py list`: the workflow reads only
its `"emails"` list (`list_data.get("emails")`, absent key ≡ `[]`). -/
structure EmailListData where
  emails : List EmailSummary
deriving DecidableEq, Repr

/-- The action object the manage-inbox branch expects from `json.loads` of
the model's extraction output: `.get` of the keys `"action"`,
`"message_id"` and `"label_name"` (absent, and JSON null, modelled `none`). -/
structure ActionData where
  action : Option String
  message_id : Option String
  label_name : Option String
deriving DecidableEq, Repr

/-- A completed `subprocess.run(..., capture_output=True, text=True)` whose
output the workflow never parses (the two Email Mutator call sites). -/
structure SubprocessResult where
  returncode : Int
  stdout : String
deriving DecidableEq, Repr

/-- A completed subprocess call whose stdout the workflow may feed to
`json.loads`: the captured exit code, and the outcome that `json.loads`
would produce on the captured stdout. -/
structure SubRun (α : Type) where
  returncode : Int
  parsed : Except JsonError α

/-- The external world one workflow run observes: the chat model and the
result of each distinct subprocess call site.  `llm` returns `Except`
because `llm.invoke` can raise (network/provider error). -/
structure Env where
  llm : List Message → Except String String
  /-- rag_cli search with `--limit 3` (draft_email, line 87). -/
  rag3 : SubRun RagData
  /-- rag_cli search with `--limit 5` (retrieve_info, line 122). -/
  rag5 : SubRun RagData
  /-- email_cli list with `--max-results 1` (manage_inbox, line 177). -/
  emailList1 : SubRun EmailListData
  /-- email_cli list `is:unread --max-results 5` (read_email, line 218). -/
  emailList5 : SubRun EmailListData
  /-- outcome of `json.loads` on the manage-inbox extraction output. -/
  jsonAction : String → Except JsonError ActionData
  /-- email_cli label call (line 188); its result is captured, nothing more. -/
  labelRun : SubprocessResult
  /-- email_cli archive call (line 196); its result is captured, nothing more. -/
  archiveRun : SubprocessResult

/-- The fixed system prompt of `classify_intent` (workflow.py lines 38-47). -/
def classifySystemPrompt : String :=
  "You are an intent classifier for an AI email agent.\n    \n"
  ++ "Classify the user's request into ONE of these intents:\n"
  ++ "- DRAFT_EMAIL: User wants to compose, write, or send an email\n"
  ++ "- RETRIEVE_INFO: User wants to search for information, ask a question, or retrieve knowledge\n"
  ++ "- MANAGE_INBOX: User wants to label, archive, organize, or manage emails\n"
  ++ "- READ_EMAIL: User wants to read, listen to, or review specific emails\n"
  ++ "- UNKNOWN: The request doesn't fit any category\n\n"
  ++ "Respond with ONLY the intent name, nothing else."

/-- The message list `classify_intent` sends to the model (lines 49-52). -/
def classifyMessages (user_input : String) : List Message :=
  [Message.system classifySystemPrompt,
   Message.human ("User request: " ++ user_input)]

/-- The list of valid intents of `classify_intent` (workflow.py line 58). -/
def valid_intents : List String :=
  ["DRAFT_EMAIL", "RETRIEVE_INFO", "MANAGE_INBOX", "READ_EMAIL", "UNKNOWN"]

/-- Python's `str.strip()` with no argument: drop whitespace characters from
both ends of the string. -/
def pyStrip (s : String) : String :=
  ⟨((s.data.dropWhile Char.isWhitespace).reverse.dropWhile Char.isWhitespace).reverse⟩

/-- classify_intent (workflow.py lines 30-63): one model call, then
`intent = response.content.strip()` coerced to "UNKNOWN" unless it is one of
the five valid intents. -/
def classify_intent (env : Env) (st : AgentState) : Except String AgentState :=
  match env.llm (classifyMessages st.user_input) with
  | Except.error e => Except.error e
  | Except.ok content =>
    let intent := pyStrip content
    let intent := if valid_intents.contains intent then intent else "UNKNOWN"
    Except.ok { st with intent := intent }

/-- route_by_intent (workflow.py lines 66-79): the conditional-edge router. -/
def route_by_intent (st : AgentState) : String :=
  let intent := st.intent
  if intent = "DRAFT_EMAIL" then "draft_email"
  else if intent = "RETRIEVE_INFO" then "retrieve_info"
  else if intent = "MANAGE_INBOX" then "manage_inbox"
  else if intent = "READ_EMAIL" then "read_email"
  else "handle_unknown"

/-- The generation prompt of `draft_email` (workflow.py lines 98-106), an
f-string over the user request and the joined context block. -/
def draftPrompt (user_input context_text : String) : String :=
  "You are an email drafting assistant.\n\nUser request: " ++ user_input
  ++ "\n\nRelevant context from knowledge base:\n" ++ context_text
  ++ "\n\nDraft a professional email based on the user's request and the provided context.\n"
  ++ "Include appropriate subject line and body."

/-- draft_email (workflow.py lines 82-114).  A non-zero rag exit code is
replaced by `{"results": []}` (line 93); a zero exit code feeds stdout to
`json.loads`, whose failure raises.  One model call produces the draft; the
second component of the result is the list of model calls made. -/
def draft_email (env : Env) (st : AgentState) :
    Except String (AgentState × List (List Message)) :=
  match (if env.rag3.returncode = 0
         then (env.rag3.parsed).mapError JsonError.str
         else Except.ok { results := [] }) with
  | Except.error e => Except.error e
  | Except.ok rag_data =>
    let context_text := String.intercalate "\n\n" (rag_data.results.map Passage.content)
    let messages := [Message.system (draftPrompt st.user_input context_text)]
    match env.llm messages with
    | Except.error e => Except.error e
    | Except.ok content =>
      Except.ok ({ st with
          draft := content,
          final_response := "I've drafted an email for you:\n\n" ++ content
            ++ "\n\nWould you like me to send it or make changes?" },
        [messages])

/-- The synthesis prompt of `retrieve_info` (workflow.py lines 134-141). -/
def retrievePrompt (user_input context_text : String) : String :=
  "You are a helpful assistant with access to the company knowledge base.\n\nUser question: "
  ++ user_input ++ "\n\nRelevant information from knowledge base:\n" ++ context_text
  ++ "\n\nProvide a clear, concise answer to the user's question based on this information."

/-- retrieve_info (workflow.py lines 117-150).  A non-zero rag exit code is
replaced by `{"results": []}` (line 128).  With a non-empty result list, one
model call's answer becomes the final response verbatim; with an empty list
the fixed not-found message is set and no model call is made. -/
def retrieve_info (env : Env) (st : AgentState) :
    Except String (AgentState × List (List Message)) :=
  match (if env.rag5.returncode = 0
         then (env.rag5.parsed).mapError JsonError.str
         else Except.ok { results := [] }) with
  | Except.error e => Except.error e
  | Except.ok rag_data =>
    match rag_data.results with
    | [] =>
      Except.ok ({ st with final_response :=
        "I couldn't find relevant information in the knowledge base for that question." }, [])
    | results =>
      let context_text := String.intercalate "\n\n" (results.map (fun r => "- " ++ r.content))
      let messages := [Message.system (retrievePrompt st.user_input context_text)]
      match env.llm messages with
      | Except.error e => Except.error e
      | Except.ok content => Except.ok ({ st with final_response := content }, [messages])

/-- The extraction prompt of `manage_inbox` (workflow.py lines 158-165);
the doubled braces of the Python f-string are literal braces. -/
def managePrompt (user_input : String) : String :=
  "Extract the email management action from this request: \"" ++ user_input
  ++ "\"\n\nRespond in JSON format:\n\x7b\n  \"action\": \"label\" or \"archive\",\n"
  ++ "  \"message_id\": \"extracted message ID if mentioned\",\n"
  ++ "  \"label_name\": \"label name if action is label\"\n\x7d"

/-- Python falsiness of the `message_id` value (`if not message_id:`),
true for `None` and for the empty string. -/
def pyFalsy : Option String → Bool
  | none => true
  | some s => s.isEmpty

/-- Passing an optional string as a subprocess argument: `None` raises
`TypeError` (CPython's message for a `None` path-like argument). -/
def requireStr : Option String → Except String String
  | none => Except.error "expected str, bytes or os.PathLike object, not NoneType"
  | some s => Except.ok s

/-- manage_inbox (workflow.py lines 153-210).  The model call stands before
the `try:` block, so its failure propagates; everything from `json.loads`
on is inside `try`, and any exception there is caught by the
`except Exception` arm, which records `str(e)` in `error` and sets the fixed
failure response.  The Email Mutator calls' results are captured and never
inspected, exactly as in the source (line 188 and line 196). -/
def manage_inbox (env : Env) (st : AgentState) :
    Except String (AgentState × List (List Message)) :=
  let messages := [Message.system (managePrompt st.user_input)]
  match env.llm messages with
  | Except.error e => Except.error e
  | Except.ok content =>
    let body : Except String AgentState :=
      match (env.jsonAction content).mapError JsonError.str with
      | Except.error e => Except.error e
      | Except.ok action_data =>
        let action := action_data.action
        let message_id := action_data.message_id
        match (if pyFalsy message_id
               then match (env.emailList1.parsed).mapError JsonError.str with
                    | Except.error e => Except.error e
                    | Except.ok list_data =>
                      match list_data.emails with
                      | [] => Except.ok message_id
                      | e :: _ => Except.ok (some e.id)
               else Except.ok message_id) with
        | Except.error e => Except.error e
        | Except.ok message_id =>
          if action = some "label" then
            let label_name := action_data.label_name.getD "Important"
            match requireStr message_id with
            | Except.error e => Except.error e
            | Except.ok _mid =>
              let _result := env.labelRun
              Except.ok { st with final_response :=
                "I've labeled the email with '" ++ label_name ++ "'." }
          else if action = some "archive" then
            match requireStr message_id with
            | Except.error e => Except.error e
            | Except.ok _mid =>
              let _result := env.archiveRun
              Except.ok { st with final_response := "I've archived the email." }
          else
            Except.ok { st with final_response :=
              "I'm not sure how to handle that inbox management request." }
    match body with
    | Except.ok st2 => Except.ok (st2, [messages])
    | Except.error e =>
      Except.ok ({ st with
          error := e,
          final_response := "I encountered an error while managing your inbox." },
        [messages])

/-- read_email (workflow.py lines 213-237).  A non-zero list exit code is
replaced by `{"emails": []}` (line 224).  With a non-empty email list the
first three are formatted `From {sender}: {subject}` and joined by
newlines beneath the fixed header; no model call in either case. -/
def read_email (env : Env) (st : AgentState) :
    Except String (AgentState × List (List Message)) :=
  match (if env.emailList5.returncode = 0
         then (env.emailList5.parsed).mapError JsonError.str
         else Except.ok { emails := [] }) with
  | Except.error e => Except.error e
  | Except.ok list_data =>
    match list_data.emails with
    | [] => Except.ok ({ st with final_response := "You have no unread emails." }, [])
    | emails =>
      let email_summaries :=
        (emails.take 3).map (fun email => "From " ++ email.sender ++ ": " ++ email.subject)
      let summary_text := String.intercalate "\n" email_summaries
      Except.ok ({ st with final_response :=
        "Here are your recent unread emails:\n\n" ++ summary_text }, [])

/-- handle_unknown (workflow.py lines 240-243). -/
def handle_unknown (st : AgentState) : AgentState :=
  { st with final_response :=
    "I'm not sure how to help with that. Could you rephrase your request?" }

/-- The conditional-edge dispatch of `create_workflow` (lines 263-273): the
router's handler name selects the node run after `classify_intent`. -/
def run_branch (env : Env) (st : AgentState) : Except String AgentState :=
  match route_by_intent st with
  | "draft_email" => (draft_email env st).map Prod.fst
  | "retrieve_info" => (retrieve_info env st).map Prod.fst
  | "manage_inbox" => (manage_inbox env st).map Prod.fst
  | "read_email" => (read_email env st).map Prod.fst
  | _ => Except.ok (handle_unknown st)

/-- One `agent_workflow.invoke` run: classify, route, run one branch, END. -/
def agent_workflow_invoke (env : Env) (st : AgentState) : Except String AgentState :=
  match classify_intent env st with
  | Except.error e => Except.error e
  | Except.ok st1 => run_branch env st1

/-- The initial state built by `process_user_input` (lines 299-306). -/
def initial_state (user_input : String) : AgentState :=
  { user_input := user_input, intent := "UNKNOWN", context := [],
    draft := "", final_response := "", error := "" }

/-- process_user_input (workflow.py lines 289-309): invoke the workflow on
the fresh initial state and return its `final_response`.  There is no
`try/except` here: an exception from any step leaves this boundary. -/
def process_user_input (env : Env) (user_input : String) : Except String String :=
  match agent_workflow_invoke env (initial_state user_input) with
  | Except.error e => Except.error e
  | Except.ok result => Except.ok result.final_response

/-- A deterministic stub environment: every collaborator succeeds with an
empty result, the model answers the empty string, and the extraction output
never parses. -/
def stubEnv : Env where
  llm := fun _ => Except.ok ""
  rag3 := { returncode := 0, parsed := Except.ok { results := [] } }
  rag5 := { returncode := 0, parsed := Except.ok { results := [] } }
  emailList1 := { returncode := 0, parsed := Except.ok { emails := [] } }
  emailList5 := { returncode := 0, parsed := Except.ok { emails := [] } }
  jsonAction := fun _ => Except.error { msg := "Expecting value", line := 1, col := 1, pos := 0 }
  labelRun := { returncode := 0, stdout := "" }
  archiveRun := { returncode := 0, stdout := "" }

/-- C3: the router is a total, deterministic, pure function of the intent:
for every state it returns one of the five defined handler names; each of
the four specific labels maps to its handler, and every other intent value
(UNKNOWN and any unexpected value included) maps to the unknown handler. -/
theorem route_by_intent_total (st : AgentState) :
    (route_by_intent st = "draft_email" ∨ route_by_intent st = "retrieve_info"
      ∨ route_by_intent st = "manage_inbox" ∨ route_by_intent st = "read_email"
      ∨ route_by_intent st = "handle_unknown")
    ∧ (st.intent = "DRAFT_EMAIL" → route_by_intent st = "draft_email")
    ∧ (st.intent = "RETRIEVE_INFO" → route_by_intent st = "retrieve_info")
    ∧ (st.intent = "MANAGE_INBOX" → route_by_intent st = "manage_inbox")
    ∧ (st.intent = "READ_EMAIL" → route_by_intent st = "read_email")
    ∧ (st.intent ∉ ["DRAFT_EMAIL", "RETRIEVE_INFO", "MANAGE_INBOX", "READ_EMAIL"] →
        route_by_intent st = "handle_unknown") := by
  by_cases h1 : st.intent = "DRAFT_EMAIL" <;>
  by_cases h2 : st.intent = "RETRIEVE_INFO" <;>
  by_cases h3 : st.intent = "MANAGE_INBOX" <;>
  by_cases h4 : st.intent = "READ_EMAIL" <;>
  simp [route_by_intent, h1, h2, h3, h4]

/-- C2 (amended): the classifier normalizes by whitespace-stripping first:
whenever the model returns text `t`, the intent becomes `pyStrip t` if that
stripped form is one of the five labels, and UNKNOWN otherwise (so empty,
multi-word and hallucinated outputs all coerce to UNKNOWN, but a label
surrounded by whitespace coerces to that label, not to UNKNOWN). -/
theorem classify_intent_normalization (env : Env) (st : AgentState) (t : String)
    (h : env.llm (classifyMessages st.user_input) = Except.ok t) :
    (pyStrip t ∈ valid_intents →
      classify_intent env st = Except.ok { st with intent := pyStrip t })
    ∧ (pyStrip t ∉ valid_intents →
      classify_intent env st = Except.ok { st with intent := "UNKNOWN" }) := by
  unfold classify_intent
  rw [h]
  constructor <;> intro hm <;> simp_all [List.contains, List.elem_iff]

/-- Environment whose model answers the classification call with a label
surrounded by whitespace. -/
def envC2 : Env := { stubEnv with llm := fun _ => Except.ok " DRAFT_EMAIL" }

/-- C2 as stated fails on the code: the text " DRAFT_EMAIL" (leading space)
is not exactly one of the five labels, yet the classifier does not coerce it
to UNKNOWN: `.strip()` runs before validation, so the intent becomes
DRAFT_EMAIL. -/
theorem classify_intent_unstripped_counterexample :
    " DRAFT_EMAIL" ∉ valid_intents
    ∧ classify_intent envC2 (initial_state "hi")
        = Except.ok { initial_state "hi" with intent := "DRAFT_EMAIL" } := by
  constructor
  · decide
  · rfl

/-- Witness for the classifier normalization theorem: the concrete stub
environment answers " DRAFT_EMAIL", whose stripped form is a valid label. -/
theorem classify_intent_normalization_witness :
    classify_intent envC2 (initial_state "hi")
      = Except.ok { initial_state "hi" with intent := pyStrip " DRAFT_EMAIL" } :=
  (classify_intent_normalization envC2 (initial_state "hi") " DRAFT_EMAIL" rfl).1
    (by decide)

/-- C4: in the retrieve-info branch, with a successful retriever call, zero
passages yield the fixed not-found response with no Completion Engine call
(the result does not even depend on the model oracle), and one or more
passages yield exactly one Completion Engine call whose raw answer becomes
the final response verbatim. -/
theorem retrieve_info_spec (env : Env) (st : AgentState) (results : List Passage)
    (hrc : env.rag5.returncode = 0)
    (hp : env.rag5.parsed = Except.ok { results := results }) :
    (results = [] →
      retrieve_info env st = Except.ok ({ st with final_response :=
        "I couldn't find relevant information in the knowledge base for that question." }, [])
      ∧ ∀ f, retrieve_info { env with llm := f } st = retrieve_info env st)
    ∧ ∀ ans, results ≠ [] →
        env.llm [Message.system (retrievePrompt st.user_input
          (String.intercalate "\n\n" (results.map (fun r => "- " ++ r.content))))]
          = Except.ok ans →
        retrieve_info env st = Except.ok ({ st with final_response := ans },
          [[Message.system (retrievePrompt st.user_input
            (String.intercalate "\n\n" (results.map (fun r => "- " ++ r.content))))]]) := by
  constructor
  · intro hres
    subst hres
    constructor
    · simp [retrieve_info, hrc, hp, Except.mapError]
    · intro f
      simp [retrieve_info, hrc, hp, Except.mapError]
  · intro ans hne hllm
    cases results with
    | nil => exact absurd rfl hne
    | cons r rs =>
      simp only [List.map_cons] at hllm
      simp [retrieve_info, hrc, hp, Except.mapError, hllm]

/-- Witness for the retrieve-info theorem: the stub environment's retriever
succeeds with zero passages, and the branch returns the fixed not-found
message with no model call. -/
theorem retrieve_info_spec_witness :
    retrieve_info stubEnv (initial_state "What is our refund policy?")
      = Except.ok ({ initial_state "What is our refund policy?" with final_response :=
          "I couldn't find relevant information in the knowledge base for that question." }, []) :=
  ((retrieve_info_spec stubEnv (initial_state "What is our refund policy?") [] rfl rfl).1 rfl).1

/-- C5: in the read-email branch, with a successful directory call, zero
messages yield exactly the fixed no-unread-emails string; N ≥ 1 messages
yield the fixed header followed by a "From sender: subject" line for each of
the first min(N,3) messages joined by newlines in directory order; and the
Completion Engine is never called (the result does not depend on the model
oracle). -/
theorem read_email_spec (env : Env) (st : AgentState) (emails : List EmailSummary)
    (hrc : env.emailList5.returncode = 0)
    (hp : env.emailList5.parsed = Except.ok { emails := emails }) :
    (emails = [] → read_email env st
        = Except.ok ({ st with final_response := "You have no unread emails." }, []))
    ∧ (emails ≠ [] → read_email env st
        = Except.ok ({ st with final_response :=
            "Here are your recent unread emails:\n\n"
            ++ String.intercalate "\n" ((emails.take 3).map
                (fun email => "From " ++ email.sender ++ ": " ++ email.subject)) }, []))
    ∧ (emails.take 3).length = min 3 emails.length
    ∧ ∀ f, read_email { env with llm := f } st = read_email env st := by
  refine ⟨?_, ?_, ?_, ?_⟩
  · intro hres
    subst hres
    simp [read_email, hrc, hp, Except.mapError]
  · intro hne
    cases emails with
    | nil => exact absurd rfl hne
    | cons e es => simp [read_email, hrc, hp, Except.mapError]
  · exact List.length_take 3 emails
  · intro f
    simp [read_email]

/-- Environment whose directory listing returns four unread messages. -/
def envC5 : Env := { stubEnv with emailList5 :=
  { returncode := 0, parsed := Except.ok { emails :=
      [{ id := "m1", sender := "alice@acme.com", subject := "Q3 report" },
       { id := "m2", sender := "bob@acme.com", subject := "Lunch" },
       { id := "m3", sender := "carol@acme.com", subject := "Invoice" },
       { id := "m4", sender := "dave@acme.com", subject := "Misc" }] } } }

/-- Witness for the read-email theorem: four unread messages produce the
header plus the three first "From sender: subject" lines. -/
theorem read_email_spec_witness :
    read_email envC5 (initial_state "Read my emails")
      = Except.ok ({ initial_state "Read my emails" with final_response :=
          ("Here are your recent unread emails:\n\n"
            ++ String.intercalate "\n"
                (([({ id := "m1", sender := "alice@acme.com", subject := "Q3 report" } : EmailSummary),
                   { id := "m2", sender := "bob@acme.com", subject := "Lunch" },
                   { id := "m3", sender := "carol@acme.com", subject := "Invoice" },
                   { id := "m4", sender := "dave@acme.com", subject := "Misc" }].take 3).map
                  (fun email => "From " ++ email.sender ++ ": " ++ email.subject))) }, []) :=
  (read_email_spec envC5 (initial_state "Read my emails") _ rfl rfl).2.1 (by decide)

/-- C6: in the draft-email branch, for every user input and every retriever
result list (the empty list included, in which case the context block is
empty and generation still proceeds), the generated text is written to
`draft` and the final response wraps it between the fixed drafting header
and the fixed confirmation question, with exactly one Completion Engine
call. -/
theorem draft_email_spec (env : Env) (st : AgentState) (results : List Passage) (T : String)
    (hrc : env.rag3.returncode = 0)
    (hp : env.rag3.parsed = Except.ok { results := results })
    (hllm : env.llm [Message.system (draftPrompt st.user_input
        (String.intercalate "\n\n" (results.map Passage.content)))] = Except.ok T) :
    draft_email env st = Except.ok ({ st with
        draft := T,
        final_response := "I've drafted an email for you:\n\n" ++ T
          ++ "\n\nWould you like me to send it or make changes?" },
      [[Message.system (draftPrompt st.user_input
          (String.intercalate "\n\n" (results.map Passage.content)))]]) := by
  simp [draft_email, hrc, hp, Except.mapError, hllm]

/-- Environment whose model answers every generation call with a fixed
draft body. -/
def envC6 : Env := { stubEnv with llm := fun _ => Except.ok "Subject: Proposal\n\nDear Acme," }

/-- Witness for the draft-email theorem at the zero-passage edge case: the
context block is empty and generation still proceeds, wrapping the draft in
the fixed confirmation response. -/
theorem draft_email_spec_witness :
    draft_email envC6 (initial_state "Draft a proposal email for Acme Corp")
      = Except.ok ({ initial_state "Draft a proposal email for Acme Corp" with
          draft := "Subject: Proposal\n\nDear Acme,",
          final_response := "I've drafted an email for you:\n\nSubject: Proposal\n\nDear Acme,"
            ++ "\n\nWould you like me to send it or make changes?" },
        [[Message.system (draftPrompt "Draft a proposal email for Acme Corp"
            (String.intercalate "\n\n" ([].map Passage.content)))]]) :=
  draft_email_spec envC6 (initial_state "Draft a proposal email for Acme Corp") [] _ rfl rfl rfl

/-- C7: in the manage-inbox branch, whenever the action-extraction output
does not parse as JSON, the branch catches the parse error, records the
exception's rendering (always a non-empty string) in `error`, sets the fixed
failure response, and returns normally — no exception escapes the branch. -/
theorem manage_inbox_parse_failure_spec (env : Env) (st : AgentState)
    (content : String) (e : JsonError)
    (hllm : env.llm [Message.system (managePrompt st.user_input)] = Except.ok content)
    (hparse : env.jsonAction content = Except.error e) :
    manage_inbox env st = Except.ok ({ st with
        error := JsonError.str e,
        final_response := "I encountered an error while managing your inbox." },
      [[Message.system (managePrompt st.user_input)]])
    ∧ JsonError.str e ≠ "" := by
  constructor
  · simp [manage_inbox, hllm, hparse, Except.mapError]
  · intro h
    have h2 := congrArg String.length h
    rw [JsonError.str] at h2
    simp only [String.length_append] at h2
    have hz : ("" : String).length = 0 := rfl
    have ho : (")" : String).length = 1 := rfl
    omega

/-- Environment whose model answers the extraction call with text that is
not JSON, so that `json.loads` fails at position zero. -/
def envC7 : Env := { stubEnv with llm := fun _ => Except.ok "Sure! I will label it." }

/-- Witness for the manage-inbox parse-failure theorem: the stub
environment's extraction output never parses, and the branch returns the
fixed failure response with the rendered decode error recorded. -/
theorem manage_inbox_parse_failure_witness :
    manage_inbox envC7 (initial_state "Label the last email")
      = Except.ok ({ initial_state "Label the last email" with
          error := JsonError.str { msg := "Expecting value", line := 1, col := 1, pos := 0 },
          final_response := "I encountered an error while managing your inbox." },
        [[Message.system (managePrompt "Label the last email")]])
    ∧ JsonError.str { msg := "Expecting value", line := 1, col := 1, pos := 0 } ≠ "" :=
  manage_inbox_parse_failure_spec envC7 (initial_state "Label the last email")
    "Sure! I will label it." { msg := "Expecting value", line := 1, col := 1, pos := 0 } rfl rfl

/-- Environment for the mutator-failure run: the extraction output parses to
a label action on message "m1", and the Email Mutator's label call exits
with code 1 (failure) and an error payload on stdout. -/
def envC8 : Env := { stubEnv with
  llm := fun _ => Except.ok "json output",
  jsonAction := fun _ => Except.ok
    { action := some "label", message_id := some "m1", label_name := some "Urgent" },
  labelRun := { returncode := 1, stdout := "\x7b\"status\": \"error\"\x7d" } }

/-- C8 is a code bug: the mutator's result is captured but never inspected
(workflow.py line 188), so a failing label call (exit code 1) still yields
the success message naming the label, and `error` stays empty — not the
branch's generic failure response with a recorded error string. -/
theorem manage_inbox_ignores_mutator_failure :
    manage_inbox envC8 (initial_state "Label the last email as Urgent")
      = Except.ok ({ initial_state "Label the last email as Urgent" with
          final_response := "I've labeled the email with 'Urgent'." },
        [[Message.system (managePrompt "Label the last email as Urgent")]])
    ∧ envC8.labelRun.returncode ≠ 0
    ∧ (initial_state "Label the last email as Urgent").error = "" := by
  refine ⟨rfl, by decide, rfl⟩

/-- Environment whose Knowledge Retriever calls fail: both rag_cli
invocations exit with code 1 and print no parseable JSON. -/
def envC9 : Env := { stubEnv with
  llm := fun _ => Except.ok "DRAFT TEXT",
  rag3 := { returncode := 1, parsed := Except.error { msg := "Expecting value", line := 1, col := 1, pos := 0 } },
  rag5 := { returncode := 1, parsed := Except.error { msg := "Expecting value", line := 1, col := 1, pos := 0 } } }

/-- C9 as stated fails on the code: a Knowledge Retriever failure (non-zero
exit code) does NOT propagate out of the retrieve-info or draft-email
branch — both branches return normally, the failure having been converted
into the branch-local empty passage list (`{"results": []}`), hence the
fixed not-found response and a draft generated from an empty context. -/
theorem retriever_failure_swallowed_counterexample :
    envC9.rag5.returncode ≠ 0
    ∧ retrieve_info envC9 (initial_state "q")
        = Except.ok ({ initial_state "q" with final_response :=
            "I couldn't find relevant information in the knowledge base for that question." }, [])
    ∧ envC9.rag3.returncode ≠ 0
    ∧ draft_email envC9 (initial_state "q")
        = Except.ok ({ initial_state "q" with
            draft := "DRAFT TEXT",
            final_response := "I've drafted an email for you:\n\nDRAFT TEXT\n\nWould you like me to send it or make changes?" },
          [[Message.system (draftPrompt "q" "")]]) := by
  refine ⟨by decide, rfl, by decide, rfl⟩

/-- C9 (amended): a Knowledge Retriever failure signalled by a non-zero exit
code is caught locally in both branches and treated as zero passages —
retrieve-info returns the fixed not-found response without calling the
model, and draft-email proceeds with an empty context block; only a
malformed stdout under a zero exit code makes the `json.loads` exception
propagate upward to the workflow caller. -/
theorem retriever_failure_local_handling (env : Env) (st : AgentState) :
    (env.rag5.returncode ≠ 0 →
      retrieve_info env st = Except.ok ({ st with final_response :=
        "I couldn't find relevant information in the knowledge base for that question." }, []))
    ∧ (∀ T, env.rag3.returncode ≠ 0 →
        env.llm [Message.system (draftPrompt st.user_input "")] = Except.ok T →
        draft_email env st = Except.ok ({ st with
            draft := T,
            final_response := "I've drafted an email for you:\n\n" ++ T
              ++ "\n\nWould you like me to send it or make changes?" },
          [[Message.system (draftPrompt st.user_input "")]]))
    ∧ (∀ e, env.rag5.returncode = 0 → env.rag5.parsed = Except.error e →
        retrieve_info env st = Except.error (JsonError.str e)) := by
  refine ⟨?_, ?_, ?_⟩
  · intro h5
    simp [retrieve_info, h5]
  · intro T h3 hllm
    simp [draft_email, h3, String.intercalate, hllm]
  · intro e h0 hperr
    simp [retrieve_info, h0, hperr, Except.mapError]

/-- Environment whose Email Directory listing for the read branch fails
with exit code 2. -/
def envC10 : Env := { stubEnv with
  emailList5 := { returncode := 2, parsed := Except.error { msg := "Expecting value", line := 1, col := 1, pos := 0 } } }

/-- C10: in the read-email branch, a failing Email Directory call (non-zero
exit code) is treated identically to an empty listing: the branch returns
normally with the fixed no-unread-emails message — indistinguishable from
an empty inbox, and no exception is raised. -/
theorem read_email_directory_failure_spec (env : Env) (st : AgentState)
    (h : env.emailList5.returncode ≠ 0) :
    read_email env st = Except.ok ({ st with final_response := "You have no unread emails." }, [])
    ∧ ∀ env2, env2.emailList5.returncode = 0 →
        env2.emailList5.parsed = Except.ok { emails := [] } →
        read_email env st = read_email env2 st := by
  constructor
  · simp [read_email, h]
  · intro env2 h0 hp
    simp [read_email, h, h0, hp, Except.mapError]

/-- Witness for the directory-failure theorem: a listing that exits with
code 2 still yields the fixed no-unread-emails response. -/
theorem read_email_directory_failure_witness :
    read_email envC10 (initial_state "Read my email")
      = Except.ok ({ initial_state "Read my email" with
          final_response := "You have no unread emails." }, []) :=
  (read_email_directory_failure_spec envC10 (initial_state "Read my email") (by decide)).1

/-- Environment whose model calls all raise a provider/network error. -/
def envC1 : Env := { stubEnv with llm := fun _ => Except.error "APIConnectionError: Connection error." }

/-- C1 as stated fails on the code: `process_user_input` has no try/except,
so when the classifier's Completion Engine call raises, the exception
propagates past the workflow boundary instead of a non-empty diagnostic
string being returned. -/
theorem process_user_input_raises_counterexample :
    process_user_input envC1 "Hello"
      = Except.error "APIConnectionError: Connection error." := rfl

/-- C1 (amended): `process_user_input` returns the selected branch's final
response when every internal step returns, but an internal failure is not
converted to a diagnostic string at this boundary: an exception from the
classifier's Completion Engine call propagates to the caller unchanged (the
catch-all that turns failures into user-visible text lives in the transport
layer, outside this function). -/
theorem process_user_input_propagates_failure (env : Env) (u e : String)
    (h : env.llm (classifyMessages u) = Except.error e) :
    process_user_input env u = Except.error e := by
  simp [process_user_input, agent_workflow_invoke, classify_intent, initial_state, h]

/-- Witness for the propagation theorem: the concrete failing-model
environment makes `process_user_input` surface the provider error. -/
theorem process_user_input_propagation_witness :
    process_user_input envC1 "Hi" = Except.error "APIConnectionError: Connection error." :=
  process_user_input_propagates_failure envC1 "Hi" "APIConnectionError: Connection error." rfl
